import Mathlib

/-!
Verification of the bilko-flow integration layer of the level-up-agency
repository (`src/server/workflow-engine.ts`, `src/server/persona-engine.ts`).

The TypeScript source is shallowly embedded: workflow/step records become
Lean structures, the workflow builders become pure functions, the stateful
module-level singleton becomes explicit state passing, JavaScript
`Math.random()` becomes an explicit list of rational draws consumed in call
order, and functions that can throw return `Except`.  JavaScript numbers in
this code are integer-valued throughout, so they are embedded as `Nat`/`Int`;
the fractional score arithmetic of the assessment handler is carried out in
`ℚ` with `Math.round x` embedded as `⌊x + 1/2⌋`.
-/

namespace LevelUp

/-- Little-endian base-10 digits, by structural recursion on a fuel bound so
that it reduces definitionally. -/
def natDigitsAux : ℕ → ℕ → List ℕ
  | 0, _ => []
  | _ + 1, 0 => []
  | fuel + 1, n + 1 => (n + 1) % 10 :: natDigitsAux fuel ((n + 1) / 10)

/-- Little-endian base-10 digits of `n`. -/
def natDigits (n : ℕ) : List ℕ := natDigitsAux n n

/-- Decimal string of a natural number, as JavaScript template interpolation
renders it (`String(12) = "12"`, `String(0) = "0"`). -/
def natStr (n : ℕ) : String :=
  if n = 0 then "0" else ⟨((natDigits n).map Nat.digitChar).reverse⟩

/-- Decimal string of an integer, as JavaScript renders it. -/
def intStr (z : ℤ) : String :=
  if z < 0 then "-" ++ natStr z.natAbs else natStr z.natAbs

/-- A JSON-ish input value as stored in a step's `inputs` map. -/
inductive Value where
  | str (s : String)
  | num (z : ℤ)
  | bool (b : Bool)
  | jsUndefined
deriving DecidableEq

/-- `DeterminismGrade` enum of bilko-flow. -/
inductive DeterminismGrade where
  | Pure
  | BestEffort
deriving DecidableEq

/-- `WorkflowStatus` enum of bilko-flow (only `Active` is used by this layer). -/
inductive WorkflowStatus where
  | Active
deriving DecidableEq

/-- Per-step execution policy (`policy: { timeoutMs, maxAttempts }`). -/
structure Policy where
  timeoutMs : ℕ
  maxAttempts : ℕ
deriving DecidableEq

/-- A workflow step as built by the integration layer. -/
structure Step where
  id : String
  workflowId : String
  name : String
  type : String
  description : Option String
  dependsOn : List String
  inputs : List (String × Value)
  policy : Policy
deriving DecidableEq

/-- A bilko-flow workflow definition as built by the integration layer. -/
structure Workflow where
  id : String
  accountId : String
  projectId : String
  environmentId : String
  name : String
  description : Option String
  version : ℕ
  specVersion : String
  status : WorkflowStatus
  createdAt : String
  updatedAt : String
  determinism : DeterminismGrade
  entryStepId : String
  steps : List Step
  secrets : List String
deriving DecidableEq

def BILKO_ACCOUNT_ID : String := "skills-os"
def BILKO_PROJECT_ID : String := "work-skills"
def BILKO_ENV_ID : String := "production"

/-- A scenario record (the fields of `@shared/schema`'s `Scenario` that
`buildScenarioWorkflow` reads). -/
structure Scenario where
  id : ℤ
  title : String
  description : String
  channels : List String
  estimatedSteps : ℕ
deriving DecidableEq

/-- `channels[i % channels.length]`: `none` models JavaScript `undefined`
when the channels array is empty (`i % 0` is `NaN`). -/
def channelAt (channels : List String) (i : ℕ) : Option String :=
  if h : channels.length = 0 then none
  else some (channels.get ⟨i % channels.length, Nat.mod_lt _ (Nat.pos_of_ne_zero h)⟩)

/-- How JavaScript renders a possibly-`undefined` string inside a template. -/
def chStr (c : Option String) : String :=
  match c with
  | some s => s
  | none => "undefined"

/-- The channel as an input `Value` (`undefined` when the array is empty). -/
def chVal (c : Option String) : Value :=
  match c with
  | some s => .str s
  | none => .jsUndefined

/-- Id of the channel-transition step of iteration `i` (`stepNum = i + 1`). -/
def tId (k : ℕ) : String := "step-" ++ natStr k ++ "-transition"

/-- Id of the persona-response step of iteration `i` (`stepNum = i + 1`). -/
def pId (k : ℕ) : String := "step-" ++ natStr k ++ "-persona"

/-- The channel-transition step pushed at iteration `i` of
`buildScenarioWorkflow`'s loop.  Its dependency is the persona step pushed by
the previous iteration (`previousStepIds[previousStepIds.length - 1]`), or
nothing on the first iteration. -/
def transitionStep (workflowId : String) (channels : List String) (i : ℕ) : Step :=
  let channel := channelAt channels i
  let stepNum := i + 1
  { id := tId stepNum
    workflowId := workflowId
    name := "Channel Transition: " ++ chStr channel ++ " (Step " ++ natStr stepNum ++ ")"
    type := "custom"
    description := some ("Transition to " ++ chStr channel ++ " channel at step " ++ natStr stepNum)
    dependsOn := if i = 0 then [] else [pId i]
    inputs := [("channel", chVal channel), ("stepNumber", .num stepNum),
               ("_handlerType", .str "custom.channel-transition")]
    policy := { timeoutMs := 5000, maxAttempts := 1 } }

/-- The persona-response step pushed at iteration `i` of
`buildScenarioWorkflow`'s loop; it depends on the transition step of the same
iteration. -/
def personaStep (workflowId : String) (channels : List String) (i : ℕ) : Step :=
  let channel := channelAt channels i
  let stepNum := i + 1
  { id := pId stepNum
    workflowId := workflowId
    name := "Persona Response: Step " ++ natStr stepNum
    type := "custom"
    description := some ("Generate persona response for step " ++ natStr stepNum ++ " on " ++ chStr channel)
    dependsOn := [tId stepNum]
    inputs := [("personaId", .num 0), ("personaType", .str ""), ("userMessage", .str ""),
               ("channel", chVal channel), ("sessionId", .num 0),
               ("priorPersonaMessageCount", .num 0),
               ("_handlerType", .str "custom.persona-response")]
    policy := { timeoutMs := 10000, maxAttempts := 1 } }

/-- The assessment step pushed after the loop; it depends on the persona step
of the last iteration, or on nothing when `estimatedSteps = 0`. -/
def assessmentStep (workflowId : String) (n : ℕ) : Step :=
  { id := "step-assessment"
    workflowId := workflowId
    name := "Generate Assessment"
    type := "custom"
    description := some "Score the session across 7 dimensions and generate assessment report"
    dependsOn := if n = 0 then [] else [pId n]
    inputs := [("sessionId", .num 0), ("userMessageCount", .num 0), ("artifactCount", .num 0),
               ("uniqueChannelCount", .num 0), ("hasArtifacts", .bool false),
               ("_handlerType", .str "custom.assessment")]
    policy := { timeoutMs := 15000, maxAttempts := 1 } }

/-- The channel-transition/persona-response step pairs pushed by the loop
`for (let i = 0; i < scenario.estimatedSteps; i++)`. -/
def channelSteps (workflowId : String) (channels : List String) : ℕ → List Step
  | 0 => []
  | n + 1 => channelSteps workflowId channels n ++
      [transitionStep workflowId channels n, personaStep workflowId channels n]

/-- The full steps array built by `buildScenarioWorkflow`. -/
def scenarioSteps (workflowId : String) (channels : List String) (n : ℕ) : List Step :=
  channelSteps workflowId channels n ++ [assessmentStep workflowId n]

/-- `buildScenarioWorkflow(scenario)`.  `now` stands for
`new Date().toISOString()`. -/
def buildScenarioWorkflow (scenario : Scenario) (now : String) : Workflow :=
  let workflowId := "wf-scenario-" ++ intStr scenario.id
  let steps := scenarioSteps workflowId scenario.channels scenario.estimatedSteps
  { id := workflowId
    accountId := BILKO_ACCOUNT_ID
    projectId := BILKO_PROJECT_ID
    environmentId := BILKO_ENV_ID
    name := "Scenario: " ++ scenario.title
    description := some scenario.description
    version := 1
    specVersion := "1.0.0"
    status := .Active
    createdAt := now
    updatedAt := now
    determinism := .BestEffort
    entryStepId := (match steps with | s :: _ => s.id | [] => "")
    steps := steps
    secrets := [] }

/-- The one-off single-step workflow built by `executePersonaResponseStep`.
`nowMs` stands for `Date.now()`, `now` for `new Date().toISOString()`, and
`priorCount` for the persona-message count computed from storage. -/
def personaWorkflow (sessionId : ℤ) (personaId : ℤ) (personaType userMessage channel : String)
    (step : ℤ) (priorCount : ℕ) (now : String) (nowMs : ℕ) : Workflow :=
  let workflowId := "wf-persona-" ++ intStr sessionId ++ "-" ++ intStr step ++ "-" ++ natStr nowMs
  { id := workflowId
    accountId := BILKO_ACCOUNT_ID
    projectId := BILKO_PROJECT_ID
    environmentId := BILKO_ENV_ID
    name := "Persona Response (Session " ++ intStr sessionId ++ ", Step " ++ intStr step ++ ")"
    description := none
    version := 1
    specVersion := "1.0.0"
    status := .Active
    createdAt := now
    updatedAt := now
    determinism := .BestEffort
    entryStepId := "persona-step"
    steps := [{ id := "persona-step"
                workflowId := workflowId
                name := "Generate Persona Response"
                type := "custom"
                description := none
                dependsOn := []
                inputs := [("personaId", .num personaId), ("personaType", .str personaType),
                           ("userMessage", .str userMessage), ("channel", .str channel),
                           ("sessionId", .num sessionId),
                           ("priorPersonaMessageCount", .num priorCount)]
                policy := { timeoutMs := 10000, maxAttempts := 1 } }]
    secrets := [] }

/-- The one-off single-step workflow built by `executeChannelTransitionStep`.
Note its determinism grade is `Pure`. -/
def transitionWorkflow (channel : String) (stepNumber : ℤ) (now : String) (nowMs : ℕ) : Workflow :=
  let workflowId := "wf-transition-" ++ intStr stepNumber ++ "-" ++ natStr nowMs
  { id := workflowId
    accountId := BILKO_ACCOUNT_ID
    projectId := BILKO_PROJECT_ID
    environmentId := BILKO_ENV_ID
    name := "Channel Transition (Step " ++ intStr stepNumber ++ ")"
    description := none
    version := 1
    specVersion := "1.0.0"
    status := .Active
    createdAt := now
    updatedAt := now
    determinism := .Pure
    entryStepId := "transition-step"
    steps := [{ id := "transition-step"
                workflowId := workflowId
                name := "Channel Transition"
                type := "custom"
                description := none
                dependsOn := []
                inputs := [("channel", .str channel), ("stepNumber", .num stepNumber)]
                policy := { timeoutMs := 5000, maxAttempts := 1 } }]
    secrets := [] }

/-- The one-off single-step workflow built by `executeAssessmentStep`. -/
def assessmentWorkflow (sessionId : ℤ) (userMessageCount artifactCount uniqueChannelCount : ℕ)
    (hasArtifacts : Bool) (now : String) (nowMs : ℕ) : Workflow :=
  let workflowId := "wf-assessment-" ++ intStr sessionId ++ "-" ++ natStr nowMs
  { id := workflowId
    accountId := BILKO_ACCOUNT_ID
    projectId := BILKO_PROJECT_ID
    environmentId := BILKO_ENV_ID
    name := "Assessment (Session " ++ intStr sessionId ++ ")"
    description := none
    version := 1
    specVersion := "1.0.0"
    status := .Active
    createdAt := now
    updatedAt := now
    determinism := .BestEffort
    entryStepId := "assessment-step"
    steps := [{ id := "assessment-step"
                workflowId := workflowId
                name := "Generate Assessment"
                type := "custom"
                description := none
                dependsOn := []
                inputs := [("sessionId", .num sessionId), ("userMessageCount", .num userMessageCount),
                           ("artifactCount", .num artifactCount),
                           ("uniqueChannelCount", .num uniqueChannelCount),
                           ("hasArtifacts", .bool hasArtifacts)]
                policy := { timeoutMs := 15000, maxAttempts := 1 } }]
    secrets := [] }

-- ── Stage selection (workflow-engine.ts `getStageForPersonaType` and the
-- persona-engine.ts stage functions it replaced) ──

/-- A message row (the fields of `@shared/schema`'s `Message` that the stage
functions read; `personaId` is nullable in the schema). -/
structure Message where
  personaId : Option ℤ
  senderType : String
  channel : String
deriving DecidableEq

/-- `getStageForPersonaType` of workflow-engine.ts. -/
def getStageForPersonaType (personaType : String) (messageCount : ℕ) : String :=
  if personaType = "analytical_calm" then
    if messageCount = 0 then "opening"
    else if messageCount ≤ 2 then "probing"
    else if messageCount ≤ 4 then "satisfied"
    else "closing"
  else if personaType = "cooperative" then
    if messageCount = 0 then "opening"
    else if messageCount ≤ 2 then "coaching"
    else if messageCount ≤ 4 then "supportive"
    else "closing"
  else
    if messageCount = 0 then "opening"
    else if messageCount ≤ 2 then "objection"
    else if messageCount ≤ 4 then "engaged"
    else "closing"

/-- `getResponseStage` of persona-engine.ts. -/
def getResponseStage (messages : List Message) (personaId : ℤ) : String :=
  let count := (messages.filter (fun m => m.personaId == some personaId)).length
  if count = 0 then "opening"
  else if count ≤ 2 then "objection"
  else if count ≤ 4 then "engaged"
  else "closing"

/-- `getAnalyticalStage` of persona-engine.ts. -/
def getAnalyticalStage (messages : List Message) (personaId : ℤ) : String :=
  let count := (messages.filter (fun m => m.personaId == some personaId)).length
  if count = 0 then "opening"
  else if count ≤ 2 then "probing"
  else if count ≤ 4 then "satisfied"
  else "closing"

/-- `getCooperativeStage` of persona-engine.ts. -/
def getCooperativeStage (messages : List Message) (personaId : ℤ) : String :=
  let count := (messages.filter (fun m => m.personaId == some personaId)).length
  if count = 0 then "opening"
  else if count ≤ 2 then "coaching"
  else if count ≤ 4 then "supportive"
  else "closing"

-- ── The custom.channel-transition handler ──

/-- The message table of the `custom.channel-transition` handler together with
its `|| default` fallback (the table entries are non-empty strings, so the
JavaScript `||` falls through exactly on a missing key). -/
def transitionMessageFor (channel : String) (stepNumber : ℤ) : String :=
  if channel = "email" then
    "**Step " ++ intStr stepNumber ++ ": Email Outreach**\n\nYou're composing an email to initiate or continue the engagement. Consider your audience, tone, and what you want to accomplish with this touchpoint."
  else if channel = "call" then
    "**Step " ++ intStr stepNumber ++ ": Discovery Call**\n\nYou're on a call with the stakeholder. This is a live conversation—be prepared for real-time questions and objections. Listen actively and adapt your approach."
  else if channel = "deck_review" then
    "**Step " ++ intStr stepNumber ++ ": Deck / Presentation Review**\n\nYou're presenting or reviewing materials with the stakeholder. They'll scrutinize your claims, data, and recommendations. Be prepared to defend every slide."
  else if channel = "follow_up" then
    "**Step " ++ intStr stepNumber ++ ": Follow-Up**\n\nThis is a follow-up touchpoint. Reference previous conversations and demonstrate that you've been listening. Confirm decisions, clarify next steps, and address any outstanding concerns."
  else if channel = "internal_coaching" then
    "**Step " ++ intStr stepNumber ++ ": Internal Strategy Session**\n\nYou're meeting with your internal ally for coaching and strategy. This is a safe space to align on approach, get advice on stakeholder dynamics, and prepare for upcoming interactions."
  else if channel = "meeting" then
    "**Step " ++ intStr stepNumber ++ ": Stakeholder Meeting**\n\nYou're in a formal meeting with multiple stakeholders. Navigate competing priorities and build consensus while maintaining credibility with each participant."
  else
    "**Step " ++ intStr stepNumber ++ "**: Continue the engagement through " ++ channel ++ "."

/-- Outputs of the `custom.channel-transition` handler. -/
structure TransitionOutputs where
  transitionMessage : String
  channel : String
deriving DecidableEq

/-- The `custom.channel-transition` handler.  Handlers run in an effect
context that includes the process-wide random stream (`draws`); this handler
never draws from it and returns it unchanged. -/
def channelTransitionHandler (channel : String) (stepNumber : ℤ) (draws : List ℚ) :
    TransitionOutputs × List ℚ :=
  ({ transitionMessage := transitionMessageFor channel stepNumber, channel := channel }, draws)

-- ── The custom.assessment handler ──

/-- `Math.round`, as JavaScript computes it on the (non-negative, finite)
values arising here: the floor of `x + 1/2`. -/
def jsRound (q : ℚ) : ℤ := ⌊q + 1/2⌋

/-- The `k`-th value drawn from the random stream (`Math.random()` call
number `k`, zero-based; `0` past the end of the modelled stream). -/
def drawAt (draws : List ℚ) (k : ℕ) : ℚ := (draws.drop k).headD 0

/-- Typed inputs of the `custom.assessment` handler. -/
structure AssessmentInputs where
  sessionId : ℤ
  userMessageCount : ℕ
  artifactCount : ℕ
  uniqueChannelCount : ℕ
  hasArtifacts : Bool
deriving DecidableEq

/-- The seven dimension scores computed by the `custom.assessment` handler. -/
structure AssessmentScores where
  persuasiveness : ℤ
  objectionHandling : ℤ
  interpersonalVibe : ℤ
  writtenCommunication : ℤ
  artifactQuality : ℤ
  sequencingStrategy : ℤ
  decisionQuality : ℤ
deriving DecidableEq

/-- The `scores` object of the `custom.assessment` handler.  The fields are
evaluated in declaration order, each consuming one `Math.random()` draw;
`artifactQuality` draws only when `hasArtifacts` is true, which shifts the
draw indices of the two fields after it. -/
def assessmentScores (inp : AssessmentInputs) (draws : List ℚ) : AssessmentScores :=
  let messageDepth : ℚ := min ((inp.userMessageCount : ℚ) * 8) 100
  let artifactBonus : ℚ := if inp.hasArtifacts then 15 else 0
  let channelDiversity : ℚ := min ((inp.uniqueChannelCount : ℚ) * 12) 100
  let off : ℕ := if inp.hasArtifacts then 1 else 0
  { persuasiveness := min (jsRound (messageDepth * (8/10) + drawAt draws 0 * 20)) 100
    objectionHandling := min (jsRound (messageDepth * (7/10) + drawAt draws 1 * 25)) 100
    interpersonalVibe := min (jsRound (messageDepth * (75/100) + drawAt draws 2 * 20)) 100
    writtenCommunication := min (jsRound ((messageDepth + artifactBonus) * (8/10) + drawAt draws 3 * 15)) 100
    artifactQuality := if inp.hasArtifacts then min (jsRound (60 + drawAt draws 4 * 35)) 100 else 0
    sequencingStrategy := min (jsRound (channelDiversity * (8/10) + drawAt draws (4 + off) * 20)) 100
    decisionQuality := min (jsRound (messageDepth * (65/100) + drawAt draws (5 + off) * 30)) 100 }

/-- Sum of the seven scores (`Object.values(scores).reduce((a, b) => a + b, 0)`). -/
def scoreSum (s : AssessmentScores) : ℤ :=
  s.persuasiveness + s.objectionHandling + s.interpersonalVibe + s.writtenCommunication +
    s.artifactQuality + s.sequencingStrategy + s.decisionQuality

/-- `overallScore`: the rounded mean over the seven dimensions. -/
def overallScoreOf (s : AssessmentScores) : ℤ := jsRound ((scoreSum s : ℚ) / 7)

/-- `recommendation` from the overall score. -/
def recommendationOf (o : ℤ) : String :=
  if o ≥ 70 then "pass" else if o ≥ 50 then "needs_improvement" else "fail"

/-- A friction-point record produced by the assessment handler. -/
structure FrictionPoint where
  area : String
  description : String
  severity : String
  channel : String
deriving DecidableEq

/-- The `frictionPoints` array pushed by the assessment handler. -/
def frictionPointsOf (inp : AssessmentInputs) : List FrictionPoint :=
  (if !inp.hasArtifacts then
    [{ area := "Artifact Production"
       description := "No artifacts were submitted during the session. Required deliverables were not produced."
       severity := "high", channel := "all" }] else []) ++
  (if inp.userMessageCount < 3 then
    [{ area := "Engagement Depth"
       description := "Limited engagement with stakeholders. More substantive interactions would demonstrate stronger consultative selling skills."
       severity := "medium", channel := "all" }] else []) ++
  (if inp.uniqueChannelCount < 2 then
    [{ area := "Channel Diversity"
       description := "Engagement was limited to a single channel. Multi-channel sequencing is important for demonstrating full workflow competency."
       severity := "medium", channel := "email" }] else [])

/-- The `strengths` array pushed by the assessment handler. -/
def strengthsOf (inp : AssessmentInputs) : List String :=
  (if inp.userMessageCount ≥ 5 then ["Strong engagement depth across multiple touchpoints"] else []) ++
  (if inp.hasArtifacts then ["Produced required deliverables demonstrating documentation discipline"] else []) ++
  (if inp.uniqueChannelCount ≥ 3 then ["Effective multi-channel sequencing and stakeholder management"] else [])

/-- The `areasForImprovement` array pushed by the assessment handler. -/
def areasForImprovementOf (inp : AssessmentInputs) (s : AssessmentScores) : List String :=
  (if !inp.hasArtifacts then ["Produce all required artifacts as first-class deliverables"] else []) ++
  (if inp.userMessageCount < 5 then ["Deepen engagement with more substantive stakeholder interactions"] else []) ++
  (if s.objectionHandling < 60 then ["Strengthen objection handling with more specific, evidence-based responses"] else [])

/-- The `summary` template string of the assessment handler. -/
def summaryOf (inp : AssessmentInputs) (o : ℤ) : String :=
  "Session completed with an overall score of " ++ intStr o ++ "/100. " ++
  (if recommendationOf o = "pass" then
     "The candidate demonstrated competent performance across the evaluated dimensions."
   else if recommendationOf o = "needs_improvement" then
     "The candidate showed potential but needs improvement in key areas."
   else "The candidate did not meet the minimum performance threshold.") ++
  " " ++ natStr inp.userMessageCount ++ " user messages across " ++
  natStr inp.uniqueChannelCount ++ " channel(s). " ++ natStr inp.artifactCount ++
  " artifact(s) submitted."

/-- Outputs of the `custom.assessment` handler. -/
structure AssessmentOutputs where
  scores : AssessmentScores
  overallScore : ℤ
  recommendation : String
  summary : String
  frictionPoints : List FrictionPoint
  strengths : List String
  areasForImprovement : List String
deriving DecidableEq

/-- The `custom.assessment` handler: outputs and the rest of the random
stream (`Math.random()` is called 6 times, 7 when `hasArtifacts`). -/
def assessmentHandler (inp : AssessmentInputs) (draws : List ℚ) :
    AssessmentOutputs × List ℚ :=
  let s := assessmentScores inp draws
  let o := overallScoreOf s
  ({ scores := s
     overallScore := o
     recommendation := recommendationOf o
     summary := summaryOf inp o
     frictionPoints := frictionPointsOf inp
     strengths := strengthsOf inp
     areasForImprovement := areasForImprovementOf inp s },
   draws.drop (if inp.hasArtifacts then 7 else 6))

-- ── Post-run result handling of the three one-off executors ──

/-- Outputs of the `custom.persona-response` handler as read back by
`executePersonaResponseStep`. -/
structure PersonaOutputs where
  response : String
  stage : String
  personaName : String
deriving DecidableEq

/-- The success-shaped fallback value `executePersonaResponseStep` returns
when the executed run's step result carries no outputs. -/
def personaFallbackResult : PersonaOutputs :=
  { response := "Thank you for your message. I'll review this and get back to you."
    stage := "fallback"
    personaName := "Unknown" }

/-- How `executePersonaResponseStep` turns the executed run's step result
(`stepResult?.outputs`, `none` when absent) into its return value; the
function never throws on a missing result. -/
def handlePersonaRunResult (outputs : Option PersonaOutputs) : Except String PersonaOutputs :=
  match outputs with
  | some o => .ok o
  | none => .ok personaFallbackResult

/-- How `executeChannelTransitionStep` turns the executed run's step result
into its return string: `(stepResult?.outputs?.transitionMessage) || fallback`,
so the fallback is also used when the message is the (falsy) empty string. -/
def handleTransitionRunResult (outputs : Option TransitionOutputs)
    (channel : String) (stepNumber : ℤ) : Except String String :=
  let fallback := "**Step " ++ intStr stepNumber ++ "**: Continue the engagement through " ++ channel ++ "."
  match outputs with
  | some o => if o.transitionMessage = "" then .ok fallback else .ok o.transitionMessage
  | none => .ok fallback

/-- How `executeAssessmentStep` turns the executed run's step result into its
return value: it throws `Error("Assessment step failed to produce outputs")`
when the step result carries no outputs. -/
def handleAssessmentRunResult (outputs : Option AssessmentOutputs) :
    Except String AssessmentOutputs :=
  match outputs with
  | some o => .ok o
  | none => .error "Assessment step failed to produce outputs"

-- ── The lazily-initialized application context singleton ──

/-- Modelled from the spec: bilko-flow's handler registry (`register(stepType,
handler)` of §4.1, reached through the package's `registerStepHandler`; the
package's code is not part of this repository).  Registration stores the
handler under its step-type key and fails with `DuplicateHandlerError` if a
handler for that type is already registered.  Only the keys are modelled. -/
def registerStepHandler (t : String) (registry : List String) : Except String (List String) :=
  if t ∈ registry then .error "DuplicateHandlerError" else .ok (registry ++ [t])

/-- `registerCustomStepHandlers` of workflow-engine.ts: registers the three
custom handlers, in source order. -/
def registerCustomStepHandlers (registry : List String) : Except String (List String) := do
  let r1 ← registerStepHandler "custom.persona-response" registry
  let r2 ← registerStepHandler "custom.channel-transition" r1
  registerStepHandler "custom.assessment" r2

/-- The module-level mutable state of workflow-engine.ts plus the registry of
the shared bilko-flow context.  Contexts are identified by creation ordinal
(`createAppContext()` returns a fresh object; two objects are identical in
the JavaScript sense exactly when their ordinals agree). -/
structure BilkoState where
  bilkoContext : Option ℕ
  registry : List String
  created : ℕ
deriving DecidableEq

/-- The state at process start: `bilkoContext = null`, no context created,
and (modelled from the spec, §4.1/§4.5) an empty handler registry. -/
def initialBilkoState : BilkoState := { bilkoContext := none, registry := [], created := 0 }

/-- `getBilkoContext()`: on the first call constructs the context and runs
`registerCustomStepHandlers`; afterwards returns the stored context.  A
registration error would propagate to the caller (the context reference is
assigned before registration runs, as in the source). -/
def getBilkoContext (s : BilkoState) : Except String ℕ × BilkoState :=
  match s.bilkoContext with
  | some c => (.ok c, s)
  | none =>
    let c := s.created
    match registerCustomStepHandlers s.registry with
    | .ok r => (.ok c, { bilkoContext := some c, registry := r, created := s.created + 1 })
    | .error e => (.error e, { bilkoContext := some c, registry := s.registry, created := s.created + 1 })

/-- The module state after `n` calls of `getBilkoContext()` from process
start. -/
def bilkoStateAfter : ℕ → BilkoState
  | 0 => initialBilkoState
  | n + 1 => (getBilkoContext (bilkoStateAfter n)).2

/-- The value returned by the `(n+1)`-th call of `getBilkoContext()`. -/
def bilkoCallResult (n : ℕ) : Except String ℕ := (getBilkoContext (bilkoStateAfter n)).1

-- ── getActivePersonaForStep ──

/-- A `scenario_personas` row joined with its persona, as returned by
`storage.getScenarioPersonas` (the persona record itself is opaque here and
represented by its id). -/
structure ScenarioPersona where
  personaId : ℤ
  introduceAtStep : ℤ
  roleInScenario : String
deriving DecidableEq

/-- `getActivePersonaForStep` (identical in workflow-engine.ts and
persona-engine.ts).  The outer `Option` models partiality: `none` is the
JavaScript `TypeError` thrown when `activePersonas[index]` is `undefined`
(a negative index); the inner `Option` is the function's `null` return.
JavaScript's `%` is the truncating remainder (`Int.tmod`), and the `-0`
produced when the negative dividend is a multiple of the length indexes the
array like `0`, which `Int.tmod`'s result `0` reproduces. -/
def getActivePersonaForStep (scenarioPersonas : List ScenarioPersona) (step : ℤ) :
    Option (Option ScenarioPersona) :=
  if (scenarioPersonas.filter (fun sp => sp.introduceAtStep ≤ step)).length = 0 then some none
  else if h : 0 ≤ Int.tmod (step - 1)
        ((scenarioPersonas.filter (fun sp => sp.introduceAtStep ≤ step)).length : ℤ) ∧
      (Int.tmod (step - 1)
        ((scenarioPersonas.filter (fun sp => sp.introduceAtStep ≤ step)).length : ℤ)).toNat <
        (scenarioPersonas.filter (fun sp => sp.introduceAtStep ≤ step)).length then
    some (some ((scenarioPersonas.filter (fun sp => sp.introduceAtStep ≤ step)).get
      ⟨(Int.tmod (step - 1)
        ((scenarioPersonas.filter (fun sp => sp.introduceAtStep ≤ step)).length : ℤ)).toNat, h.2⟩))
  else none

-- ── Step-graph relations used by the invariants ──

/-- The ids of a step list. -/
def stepIds (l : List Step) : List String := l.map Step.id

/-- Every dependency of the step at index `i` is the id of a step at a
strictly smaller index. -/
def ForwardDeps (l : List Step) : Prop :=
  ∀ i : Fin l.length, ∀ d ∈ (l.get i).dependsOn,
    ∃ j : Fin l.length, j.val < i.val ∧ (l.get j).id = d

/-- The dependency relation over a workflow's steps: `a` depends on `b`. -/
def depRel (l : List Step) (a b : String) : Prop :=
  ∃ s, s ∈ l ∧ s.id = a ∧ b ∈ s.dependsOn

-- ── Helper lemmas: decimal strings and step-id distinctness ──

theorem digitChar_inj_lt : ∀ a, a < 10 → ∀ b, b < 10 → Nat.digitChar a = Nat.digitChar b → a = b := by
  decide

theorem map_digitChar_inj : ∀ {l₁ l₂ : List ℕ}, (∀ x ∈ l₁, x < 10) → (∀ x ∈ l₂, x < 10) →
    l₁.map Nat.digitChar = l₂.map Nat.digitChar → l₁ = l₂ := by
  intro l₁
  induction l₁ with
  | nil => intro l₂ _ _ h; cases l₂ <;> simp_all
  | cons a t ih =>
    intro l₂ h₁ h₂ h
    cases l₂ with
    | nil => simp at h
    | cons b t₂ =>
      simp only [List.map_cons, List.cons.injEq] at h
      have ha : a = b := digitChar_inj_lt a (h₁ a (by simp)) b (h₂ b (by simp)) h.1
      have ht : t = t₂ := ih (fun x hx => h₁ x (by simp [hx])) (fun x hx => h₂ x (by simp [hx])) h.2
      rw [ha, ht]

theorem natDigitsAux_eq_digits : ∀ fuel n, n ≤ fuel → natDigitsAux fuel n = Nat.digits 10 n := by
  intro fuel
  induction fuel with
  | zero =>
    intro n hn
    have : n = 0 := by omega
    subst this
    simp [natDigitsAux]
  | succ f ih =>
    intro n hn
    cases n with
    | zero => simp [natDigitsAux]
    | succ m =>
      show (m + 1) % 10 :: natDigitsAux f ((m + 1) / 10) = _
      rw [ih ((m + 1) / 10) (by
        have := Nat.div_lt_self (Nat.succ_pos m) (by norm_num : 1 < 10)
        omega)]
      rw [← Nat.digits_def' (by norm_num : 1 < 10) (Nat.succ_pos m)]

theorem natDigits_eq (n : ℕ) : natDigits n = Nat.digits 10 n :=
  natDigitsAux_eq_digits n n le_rfl

theorem digits_map_ne_single_zero {b : ℕ} (hb : b ≠ 0)
    (h : (Nat.digits 10 b).map Nat.digitChar = ['0']) : False := by
  obtain ⟨d, hdig⟩ : ∃ d, Nat.digits 10 b = [d] := by
    cases hdg : Nat.digits 10 b with
    | nil => rw [hdg] at h; simp at h
    | cons x t =>
      rw [hdg] at h
      cases t with
      | nil => exact ⟨x, rfl⟩
      | cons y t₂ => simp at h
  rw [hdig] at h
  simp only [List.map_cons, List.map_nil, List.cons.injEq, and_true] at h
  have hdlt : d < 10 := Nat.digits_lt_base (by norm_num) (by rw [hdig]; simp)
  have hd0 : d = 0 := digitChar_inj_lt d hdlt 0 (by norm_num) (by simpa using h)
  have := Nat.ofDigits_digits 10 b
  rw [hdig, hd0] at this
  simp [Nat.ofDigits] at this
  exact hb this.symm

theorem natStr_injective : Function.Injective natStr := by
  intro a b h
  unfold natStr at h
  simp only [natDigits_eq] at h
  split_ifs at h with ha hb hb
  · exact ha.trans hb.symm
  · exfalso
    have hd : (["0".head] : List Char) = ((Nat.digits 10 b).map Nat.digitChar).reverse := by
      have := congrArg String.data h
      exact this
    apply digits_map_ne_single_zero hb
    have := congrArg List.reverse hd
    simpa using this.symm
  · exfalso
    have hd : ((Nat.digits 10 a).map Nat.digitChar).reverse = (["0".head] : List Char) := by
      have := congrArg String.data h
      exact this
    apply digits_map_ne_single_zero ha
    have := congrArg List.reverse hd
    simpa using this
  · have hd := congrArg String.data h
    have hmap : (Nat.digits 10 a).map Nat.digitChar = (Nat.digits 10 b).map Nat.digitChar :=
      List.reverse_injective hd
    have hdig : Nat.digits 10 a = Nat.digits 10 b :=
      map_digitChar_inj (fun x hx => Nat.digits_lt_base (by norm_num) hx)
        (fun x hx => Nat.digits_lt_base (by norm_num) hx) hmap
    have := Nat.ofDigits_digits 10 a
    rw [hdig, Nat.ofDigits_digits] at this
    exact this.symm

theorem tId_inj {a b : ℕ} (h : tId a = tId b) : a = b := by
  unfold tId at h
  have hd := congrArg String.data h
  simp only [String.data_append] at hd
  rw [List.append_assoc, List.append_assoc] at hd
  have h1 := List.append_cancel_left hd
  have h2 := List.append_cancel_right h1
  exact natStr_injective (String.ext h2)

theorem pId_inj {a b : ℕ} (h : pId a = pId b) : a = b := by
  unfold pId at h
  have hd := congrArg String.data h
  simp only [String.data_append] at hd
  rw [List.append_assoc, List.append_assoc] at hd
  have h1 := List.append_cancel_left hd
  have h2 := List.append_cancel_right h1
  exact natStr_injective (String.ext h2)

theorem tId_lastChar (a : ℕ) : (tId a).data.getLast? = some 'n' := by
  unfold tId
  simp only [String.data_append]
  rw [List.getLast?_append_of_ne_nil _ (by decide)]
  decide

theorem pId_lastChar (a : ℕ) : (pId a).data.getLast? = some 'a' := by
  unfold pId
  simp only [String.data_append]
  rw [List.getLast?_append_of_ne_nil _ (by decide)]
  decide

theorem tId_ne_pId (a b : ℕ) : tId a ≠ pId b := by
  intro h
  have := (tId_lastChar a).symm.trans (congrArg (fun s => s.data.getLast?) h)
  rw [pId_lastChar] at this
  simp at this

theorem tId_ne_assessment (a : ℕ) : tId a ≠ "step-assessment" := by
  intro h
  have := (tId_lastChar a).symm.trans (congrArg (fun s => s.data.getLast?) h)
  simp at this

theorem pId_ne_assessment (a : ℕ) : pId a ≠ "step-assessment" := by
  intro h
  have := (pId_lastChar a).symm.trans (congrArg (fun s => s.data.getLast?) h)
  simp at this

-- ── Helper lemmas: forward dependencies, nodup ids, acyclicity ──

theorem stepIds_append (l₁ l₂ : List Step) : stepIds (l₁ ++ l₂) = stepIds l₁ ++ stepIds l₂ := by
  simp [stepIds]

theorem forwardDeps_append (l : List Step) (s : Step) (hl : ForwardDeps l)
    (hs : ∀ d ∈ s.dependsOn, d ∈ stepIds l) : ForwardDeps (l ++ [s]) := by
  intro i d hd
  by_cases hi : i.val < l.length
  · have hget : (l ++ [s]).get i = l.get ⟨i.val, hi⟩ := by
      simp only [List.get_eq_getElem]
      exact List.getElem_append_left hi
    rw [hget] at hd
    obtain ⟨j, hj, hjid⟩ := hl ⟨i.val, hi⟩ d hd
    refine ⟨⟨j.val, by simp only [List.length_append, List.length_singleton]; omega⟩, hj, ?_⟩
    have : (l ++ [s]).get ⟨j.val, by simp only [List.length_append, List.length_singleton]; omega⟩ =
        l.get j := by
      simp only [List.get_eq_getElem]
      exact List.getElem_append_left j.isLt
    rw [this]
    exact hjid
  · have hieq : i.val = l.length := by
      have := i.isLt
      simp only [List.length_append, List.length_singleton] at this
      omega
    have hget : (l ++ [s]).get i = s := by
      simp only [List.get_eq_getElem]
      rw [List.getElem_append_right (by omega)]
      simp [hieq]
    rw [hget] at hd
    have hmem := hs d hd
    rw [stepIds, List.mem_map] at hmem
    obtain ⟨t, ht, htid⟩ := hmem
    rw [List.mem_iff_getElem] at ht
    obtain ⟨j, hj, hjt⟩ := ht
    refine ⟨⟨j, by simp only [List.length_append, List.length_singleton]; omega⟩,
      by show j < i.val; omega, ?_⟩
    have : (l ++ [s]).get ⟨j, by simp only [List.length_append, List.length_singleton]; omega⟩ =
        l.get ⟨j, hj⟩ := by
      simp only [List.get_eq_getElem]
      exact List.getElem_append_left hj
    rw [this]
    rw [List.get_eq_getElem]
    rw [hjt]
    exact htid

theorem channelSteps_forward (wfId : String) (ch : List String) :
    ∀ n, ForwardDeps (channelSteps wfId ch n) ∧
      (∀ k, 1 ≤ k → k ≤ n →
        tId k ∈ stepIds (channelSteps wfId ch n) ∧ pId k ∈ stepIds (channelSteps wfId ch n)) := by
  intro n
  induction n with
  | zero =>
    constructor
    · intro i
      exact absurd i.isLt (by simp [channelSteps])
    · intro k h1 h0
      omega
  | succ n ih =>
    have hsplit : channelSteps wfId ch (n + 1) =
        (channelSteps wfId ch n ++ [transitionStep wfId ch n]) ++ [personaStep wfId ch n] := by
      simp [channelSteps, List.append_assoc]
    have htdep : ∀ d ∈ (transitionStep wfId ch n).dependsOn, d ∈ stepIds (channelSteps wfId ch n) := by
      intro d hd
      simp only [transitionStep] at hd
      by_cases hn : n = 0
      · rw [if_pos hn] at hd
        simp at hd
      · rw [if_neg hn] at hd
        simp only [List.mem_singleton] at hd
        rw [hd]
        exact (ih.2 n (by omega) le_rfl).2
    have hpdep : ∀ d ∈ (personaStep wfId ch n).dependsOn,
        d ∈ stepIds (channelSteps wfId ch n ++ [transitionStep wfId ch n]) := by
      intro d hd
      simp only [personaStep, List.mem_singleton] at hd
      rw [hd, stepIds_append]
      apply List.mem_append_right
      simp [stepIds, transitionStep]
    constructor
    · rw [hsplit]
      exact forwardDeps_append _ _ (forwardDeps_append _ _ ih.1 htdep) hpdep
    · intro k h1 hk
      rw [hsplit, stepIds_append, stepIds_append]
      by_cases hkn : k ≤ n
      · obtain ⟨hkt, hkp⟩ := ih.2 k h1 hkn
        exact ⟨List.mem_append_left _ (List.mem_append_left _ hkt),
               List.mem_append_left _ (List.mem_append_left _ hkp)⟩
      · have hkeq : k = n + 1 := by omega
        subst hkeq
        constructor
        · apply List.mem_append_left
          apply List.mem_append_right
          simp [stepIds, transitionStep]
        · apply List.mem_append_right
          simp [stepIds, personaStep]

theorem scenarioSteps_forward (wfId : String) (ch : List String) (n : ℕ) :
    ForwardDeps (scenarioSteps wfId ch n) := by
  rw [scenarioSteps]
  apply forwardDeps_append _ _ (channelSteps_forward wfId ch n).1
  intro d hd
  simp only [assessmentStep] at hd
  by_cases hn : n = 0
  · rw [if_pos hn] at hd
    simp at hd
  · rw [if_neg hn] at hd
    simp only [List.mem_singleton] at hd
    rw [hd]
    exact ((channelSteps_forward wfId ch n).2 n (by omega) le_rfl).2

theorem mem_stepIds_channelSteps (wfId : String) (ch : List String) :
    ∀ n x, x ∈ stepIds (channelSteps wfId ch n) →
      ∃ k, 1 ≤ k ∧ k ≤ n ∧ (x = tId k ∨ x = pId k) := by
  intro n
  induction n with
  | zero =>
    intro x hx
    simp [channelSteps, stepIds] at hx
  | succ n ih =>
    intro x hx
    simp only [channelSteps, stepIds_append] at hx
    rcases List.mem_append.mp hx with hx | hx
    · obtain ⟨k, h1, hk, hor⟩ := ih x hx
      exact ⟨k, h1, by omega, hor⟩
    · simp only [stepIds, List.map_cons, List.map_nil, List.mem_cons, List.mem_singleton,
        List.not_mem_nil, or_false] at hx
      rcases hx with hx | hx
      · exact ⟨n + 1, by omega, le_rfl, Or.inl hx⟩
      · exact ⟨n + 1, by omega, le_rfl, Or.inr hx⟩

theorem nodup_stepIds_channelSteps (wfId : String) (ch : List String) :
    ∀ n, (stepIds (channelSteps wfId ch n)).Nodup := by
  intro n
  induction n with
  | zero => simp [channelSteps, stepIds]
  | succ n ih =>
    simp only [channelSteps, stepIds_append]
    rw [List.nodup_append]
    refine ⟨ih, ?_, ?_⟩
    · simp only [stepIds, List.map_cons, List.map_nil]
      simp only [transitionStep, personaStep]
      exact List.nodup_cons.mpr ⟨by simp [tId_ne_pId], List.nodup_singleton _⟩
    · intro x hx hx2
      obtain ⟨k, h1, hk, hor⟩ := mem_stepIds_channelSteps wfId ch n x hx
      simp only [stepIds, List.map_cons, List.map_nil, List.mem_cons, List.mem_singleton,
        List.not_mem_nil, or_false] at hx2
      have htid : (transitionStep wfId ch n).id = tId (n + 1) := rfl
      have hpid : (personaStep wfId ch n).id = pId (n + 1) := rfl
      rw [htid, hpid] at hx2
      rcases hor with hx' | hx' <;> rcases hx2 with hx2 | hx2 <;> rw [hx'] at hx2
      · have := tId_inj hx2
        omega
      · exact (tId_ne_pId k (n + 1) hx2).elim
      · exact (tId_ne_pId (n + 1) k hx2.symm).elim
      · have := pId_inj hx2
        omega

theorem nodup_stepIds_scenarioSteps (wfId : String) (ch : List String) (n : ℕ) :
    (stepIds (scenarioSteps wfId ch n)).Nodup := by
  rw [scenarioSteps, stepIds_append, List.nodup_append]
  refine ⟨nodup_stepIds_channelSteps wfId ch n, by simp [stepIds, assessmentStep], ?_⟩
  intro x hx hx2
  obtain ⟨k, h1, hk, hor⟩ := mem_stepIds_channelSteps wfId ch n x hx
  simp only [stepIds, assessmentStep, List.map_cons, List.map_nil, List.mem_singleton] at hx2
  rcases hor with hx' | hx' <;> rw [hx'] at hx2
  · exact tId_ne_assessment k hx2
  · exact pId_ne_assessment k hx2

theorem depRel_indexOf_lt (l : List Step) (hnd : (stepIds l).Nodup) (hfw : ForwardDeps l)
    {a b : String} (h : depRel l a b) :
    (stepIds l).indexOf b < (stepIds l).indexOf a := by
  obtain ⟨s, hs, hsid, hb⟩ := h
  rw [List.mem_iff_getElem] at hs
  obtain ⟨i, hi, hsi⟩ := hs
  have hd : b ∈ (l.get ⟨i, hi⟩).dependsOn := by
    rw [List.get_eq_getElem, hsi]
    exact hb
  obtain ⟨j, hji, hjid⟩ := hfw ⟨i, hi⟩ b hd
  have hlen : (stepIds l).length = l.length := by simp [stepIds]
  have hgi : (stepIds l).get ⟨i, by omega⟩ = a := by
    simp only [stepIds, List.get_eq_getElem, List.getElem_map]
    rw [hsi]
    exact hsid
  have hgj : (stepIds l).get ⟨j.val, by have := j.isLt; omega⟩ = b := by
    simp only [stepIds, List.get_eq_getElem, List.getElem_map]
    rw [← List.get_eq_getElem l j]
    exact hjid
  have hia : (stepIds l).indexOf a = i := by
    have hmem : a ∈ stepIds l := hgi ▸ List.get_mem _ _ _
    have hlt := List.indexOf_lt_length.mpr hmem
    have := List.indexOf_get (l := stepIds l) (a := a) hlt
    have heq := hnd.get_inj_iff.mp (this.trans hgi.symm)
    exact congrArg Fin.val heq
  have hib : (stepIds l).indexOf b = j.val := by
    have hmem : b ∈ stepIds l := hgj ▸ List.get_mem _ _ _
    have hlt := List.indexOf_lt_length.mpr hmem
    have := List.indexOf_get (l := stepIds l) (a := b) hlt
    have heq := hnd.get_inj_iff.mp (this.trans hgj.symm)
    exact congrArg Fin.val heq
  rw [hia, hib]
  exact hji

theorem acyclic_of_forwardDeps (l : List Step) (hnd : (stepIds l).Nodup)
    (hfw : ForwardDeps l) : ∀ a, ¬ Relation.TransGen (depRel l) a a := by
  have key : ∀ x y, Relation.TransGen (depRel l) x y →
      (stepIds l).indexOf y < (stepIds l).indexOf x := by
    intro x y h
    induction h with
    | single h => exact depRel_indexOf_lt l hnd hfw h
    | tail _ h ih => exact lt_trans (depRel_indexOf_lt l hnd hfw h) ih
  intro a h
  exact absurd (key a a h) (lt_irrefl _)

-- ── Helper lemmas: resolvable dependencies, single-step workflows ──

theorem depsResolvable_of_forwardDeps (l : List Step) (hfw : ForwardDeps l) :
    ∀ s ∈ l, ∀ d ∈ s.dependsOn, d ∈ stepIds l := by
  intro s hs d hd
  rw [List.mem_iff_getElem] at hs
  obtain ⟨i, hi, hsi⟩ := hs
  have hd' : d ∈ (l.get ⟨i, hi⟩).dependsOn := by
    rw [List.get_eq_getElem, hsi]
    exact hd
  obtain ⟨j, _, hjid⟩ := hfw ⟨i, hi⟩ d hd'
  rw [← hjid]
  exact List.mem_map_of_mem Step.id (List.get_mem _ _ _)

theorem forwardDeps_single (s : Step) (h : s.dependsOn = []) : ForwardDeps [s] := by
  intro i d hd
  have hi : i.val = 0 := by
    have := i.isLt
    simp only [List.length_singleton] at this
    omega
  have : ([s] : List Step).get i = s := by
    rcases i with ⟨iv, hiv⟩
    simp only at hi
    subst hi
    rfl
  rw [this, h] at hd
  exact absurd hd (List.not_mem_nil d)

theorem singleStep_graph_invariant (s : Step) (h : s.dependsOn = []) :
    (∀ a, ¬ Relation.TransGen (depRel [s]) a a) ∧
    (∀ t ∈ [s], ∀ d ∈ t.dependsOn, d ∈ stepIds [s]) :=
  ⟨acyclic_of_forwardDeps [s] (by simp [stepIds]) (forwardDeps_single s h),
   depsResolvable_of_forwardDeps [s] (forwardDeps_single s h)⟩

theorem mem_channelSteps (wfId : String) (ch : List String) :
    ∀ n s, s ∈ channelSteps wfId ch n →
      ∃ i, i < n ∧ (s = transitionStep wfId ch i ∨ s = personaStep wfId ch i) := by
  intro n
  induction n with
  | zero => intro s hs; simp [channelSteps] at hs
  | succ n ih =>
    intro s hs
    simp only [channelSteps] at hs
    rcases List.mem_append.mp hs with hs | hs
    · obtain ⟨i, hi, hor⟩ := ih s hs
      exact ⟨i, by omega, hor⟩
    · simp only [List.mem_cons, List.mem_singleton, List.not_mem_nil, or_false] at hs
      exact ⟨n, by omega, hs⟩

theorem mem_scenarioSteps (wfId : String) (ch : List String) (n : ℕ) (s : Step)
    (hs : s ∈ scenarioSteps wfId ch n) :
    s = assessmentStep wfId n ∨
      ∃ i, i < n ∧ (s = transitionStep wfId ch i ∨ s = personaStep wfId ch i) := by
  rw [scenarioSteps] at hs
  rcases List.mem_append.mp hs with hs | hs
  · exact Or.inr (mem_channelSteps wfId ch n s hs)
  · simp only [List.mem_singleton] at hs
    exact Or.inl hs

theorem scenarioSteps_ne_nil (wfId : String) (ch : List String) (n : ℕ) :
    scenarioSteps wfId ch n ≠ [] := by
  rw [scenarioSteps]
  intro h
  have := congrArg List.length h
  simp at this

-- ── Helper lemmas: JavaScript rounding and random draws ──

theorem jsRound_nonneg {q : ℚ} (hq : 0 ≤ q) : 0 ≤ jsRound q := by
  unfold jsRound
  exact Int.le_floor.mpr (by linarith)

theorem jsRound_le_100 {q : ℚ} (hq : q ≤ 100) : jsRound q ≤ 100 := by
  unfold jsRound
  have : (⌊q + 1/2⌋ : ℤ) < 101 := Int.floor_lt.mpr (by norm_num; linarith)
  omega

theorem jsRound_ge (c : ℤ) {q : ℚ} (hq : (c : ℚ) ≤ q) : c ≤ jsRound q := by
  unfold jsRound
  exact Int.le_floor.mpr (by linarith)

theorem clampScore_bounds (q : ℚ) (hq : 0 ≤ q) :
    0 ≤ min (jsRound q) 100 ∧ min (jsRound q) 100 ≤ 100 :=
  ⟨le_min (jsRound_nonneg hq) (by norm_num), min_le_right _ _⟩

theorem drawAt_bounds {draws : List ℚ} (h : ∀ r ∈ draws, 0 ≤ r ∧ r < 1) (k : ℕ) :
    0 ≤ drawAt draws k ∧ drawAt draws k < 1 := by
  unfold drawAt
  cases hd : draws.drop k with
  | nil => norm_num
  | cons a t =>
    simp only [List.headD_cons]
    apply h
    apply List.mem_of_mem_drop (n := k)
    rw [hd]
    simp

theorem recommendationOf_iff (o : ℤ) :
    (recommendationOf o = "pass" ↔ 70 ≤ o) ∧
    (recommendationOf o = "needs_improvement" ↔ 50 ≤ o ∧ o < 70) ∧
    (recommendationOf o = "fail" ↔ o < 50) := by
  unfold recommendationOf
  split_ifs with h1 h2
  · exact ⟨⟨fun _ => h1, fun _ => rfl⟩, ⟨fun hh => absurd hh (by decide), fun hh => by omega⟩,
      ⟨fun hh => absurd hh (by decide), fun hh => by omega⟩⟩
  · exact ⟨⟨fun hh => absurd hh (by decide), fun hh => by omega⟩, ⟨fun _ => ⟨h2, by omega⟩, fun _ => rfl⟩,
      ⟨fun hh => absurd hh (by decide), fun hh => by omega⟩⟩
  · exact ⟨⟨fun hh => absurd hh (by decide), fun hh => by omega⟩,
      ⟨fun hh => absurd hh (by decide), fun hh => by omega⟩, ⟨fun _ => by omega, fun _ => rfl⟩⟩

-- ── Helper lemmas: truncating remainder sign ──

theorem tmod_nonpos_of_nonpos (a b : ℤ) (ha : a ≤ 0) : Int.tmod a b ≤ 0 := by
  cases a with
  | ofNat m =>
    have hm : m = 0 := by
      have : (m : ℤ) ≤ 0 := ha
      exact_mod_cast Nat.le_zero.mp (by exact_mod_cast this)
    subst hm
    cases b with
    | ofNat n =>
      have h : Int.tmod (Int.ofNat 0) (Int.ofNat n) = ((0 % n : ℕ) : ℤ) := rfl
      rw [h]
      simp
    | negSucc n =>
      have h : Int.tmod (Int.ofNat 0) (Int.negSucc n) = ((0 % (n + 1) : ℕ) : ℤ) := rfl
      rw [h]
      simp
  | negSucc m =>
    cases b with
    | ofNat n =>
      have h : Int.tmod (Int.negSucc m) (Int.ofNat n) = -(((m + 1) % n : ℕ) : ℤ) := rfl
      rw [h]
      omega
    | negSucc n =>
      have h : Int.tmod (Int.negSucc m) (Int.negSucc n) = -(((m + 1) % (n + 1) : ℕ) : ℤ) := rfl
      rw [h]
      omega

-- ── Claim theorems ──

/-- C1: for every scenario, in the workflow returned by `buildScenarioWorkflow`
every dependency listed in a step's `dependsOn` refers to a step that appears
strictly earlier in the workflow's steps array, so declaration order is a
topological order of the dependency graph. -/
theorem c1_buildScenarioWorkflow_dependencies_precede (scenario : Scenario) (now : String)
    (i : Fin (buildScenarioWorkflow scenario now).steps.length) (d : String)
    (hd : d ∈ ((buildScenarioWorkflow scenario now).steps.get i).dependsOn) :
    ∃ j : Fin (buildScenarioWorkflow scenario now).steps.length,
      j.val < i.val ∧ ((buildScenarioWorkflow scenario now).steps.get j).id = d :=
  scenarioSteps_forward ("wf-scenario-" ++ intStr scenario.id) scenario.channels
    scenario.estimatedSteps i d hd

/-- C1 witness: in the workflow of a one-step scenario, the persona step at
index 1 depends on `step-1-transition`, which indeed appears earlier. -/
theorem c1_witness :
    ∃ j : Fin (buildScenarioWorkflow ⟨1, "t", "d", ["email"], 1⟩ "now").steps.length,
      j.val < 1 ∧
        ((buildScenarioWorkflow ⟨1, "t", "d", ["email"], 1⟩ "now").steps.get j).id =
          "step-1-transition" :=
  c1_buildScenarioWorkflow_dependencies_precede ⟨1, "t", "d", ["email"], 1⟩ "now"
    ⟨1, by decide⟩ "step-1-transition" (by decide)

/-- C2: every workflow value constructed by the integration layer — the
scenario workflow of `buildScenarioWorkflow` and the one-off single-step
workflows of `executePersonaResponseStep`, `executeChannelTransitionStep` and
`executeAssessmentStep` — satisfies the step-graph invariant: the dependency
relation over its steps is acyclic and every id occurring in a step's
`dependsOn` is the id of a step of the same workflow. -/
theorem c2_step_graph_invariant :
    (∀ (scenario : Scenario) (now : String),
      (∀ a, ¬ Relation.TransGen (depRel (buildScenarioWorkflow scenario now).steps) a a) ∧
      (∀ s ∈ (buildScenarioWorkflow scenario now).steps, ∀ d ∈ s.dependsOn,
        d ∈ stepIds (buildScenarioWorkflow scenario now).steps)) ∧
    (∀ (sessionId personaId : ℤ) (personaType userMessage channel : String) (step : ℤ)
        (priorCount : ℕ) (now : String) (nowMs : ℕ),
      (∀ a, ¬ Relation.TransGen (depRel (personaWorkflow sessionId personaId personaType
        userMessage channel step priorCount now nowMs).steps) a a) ∧
      (∀ s ∈ (personaWorkflow sessionId personaId personaType userMessage channel step
          priorCount now nowMs).steps, ∀ d ∈ s.dependsOn,
        d ∈ stepIds (personaWorkflow sessionId personaId personaType userMessage channel step
          priorCount now nowMs).steps)) ∧
    (∀ (channel : String) (stepNumber : ℤ) (now : String) (nowMs : ℕ),
      (∀ a, ¬ Relation.TransGen (depRel (transitionWorkflow channel stepNumber now nowMs).steps) a a) ∧
      (∀ s ∈ (transitionWorkflow channel stepNumber now nowMs).steps, ∀ d ∈ s.dependsOn,
        d ∈ stepIds (transitionWorkflow channel stepNumber now nowMs).steps)) ∧
    (∀ (sessionId : ℤ) (userMessageCount artifactCount uniqueChannelCount : ℕ)
        (hasArtifacts : Bool) (now : String) (nowMs : ℕ),
      (∀ a, ¬ Relation.TransGen (depRel (assessmentWorkflow sessionId userMessageCount
        artifactCount uniqueChannelCount hasArtifacts now nowMs).steps) a a) ∧
      (∀ s ∈ (assessmentWorkflow sessionId userMessageCount artifactCount uniqueChannelCount
          hasArtifacts now nowMs).steps, ∀ d ∈ s.dependsOn,
        d ∈ stepIds (assessmentWorkflow sessionId userMessageCount artifactCount
          uniqueChannelCount hasArtifacts now nowMs).steps)) := by
  refine ⟨?_, ?_, ?_, ?_⟩
  · intro scenario now
    exact ⟨acyclic_of_forwardDeps _
        (nodup_stepIds_scenarioSteps ("wf-scenario-" ++ intStr scenario.id) scenario.channels
          scenario.estimatedSteps)
        (scenarioSteps_forward _ scenario.channels scenario.estimatedSteps),
      depsResolvable_of_forwardDeps _
        (scenarioSteps_forward _ scenario.channels scenario.estimatedSteps)⟩
  · intro sessionId personaId personaType userMessage channel step priorCount now nowMs
    exact singleStep_graph_invariant _ rfl
  · intro channel stepNumber now nowMs
    exact singleStep_graph_invariant _ rfl
  · intro sessionId userMessageCount artifactCount uniqueChannelCount hasArtifacts now nowMs
    exact singleStep_graph_invariant _ rfl

/-- C2 witness: in the one-step scenario workflow, the assessment step's
dependency `step-1-persona` is the id of a step of the same workflow. -/
theorem c2_witness :
    "step-1-persona" ∈ stepIds (buildScenarioWorkflow ⟨1, "t", "d", ["email"], 1⟩ "now").steps :=
  (c2_step_graph_invariant.1 ⟨1, "t", "d", ["email"], 1⟩ "now").2
    (assessmentStep ("wf-scenario-" ++ intStr 1) 1) (by decide) "step-1-persona" (by decide)

/-- C3: for every scenario, including `estimatedSteps = 0`, the workflow
returned by `buildScenarioWorkflow` has a non-empty steps collection, its
`entryStepId` equals the id of the first step, and the entry id exists in the
step set, so the `UnreachableEntryError` condition cannot arise for these
workflows. -/
theorem c3_entry_step_exists (scenario : Scenario) (now : String) :
    (buildScenarioWorkflow scenario now).steps ≠ [] ∧
    (∃ s0 rest, (buildScenarioWorkflow scenario now).steps = s0 :: rest ∧
      (buildScenarioWorkflow scenario now).entryStepId = s0.id) ∧
    (buildScenarioWorkflow scenario now).entryStepId ∈
      stepIds (buildScenarioWorkflow scenario now).steps := by
  have hne := scenarioSteps_ne_nil ("wf-scenario-" ++ intStr scenario.id) scenario.channels
    scenario.estimatedSteps
  obtain ⟨s0, rest, hs⟩ : ∃ s0 rest,
      scenarioSteps ("wf-scenario-" ++ intStr scenario.id) scenario.channels
        scenario.estimatedSteps = s0 :: rest := by
    cases h : scenarioSteps ("wf-scenario-" ++ intStr scenario.id) scenario.channels
        scenario.estimatedSteps with
    | nil => exact absurd h hne
    | cons a t => exact ⟨a, t, rfl⟩
  have hsteps : (buildScenarioWorkflow scenario now).steps =
      scenarioSteps ("wf-scenario-" ++ intStr scenario.id) scenario.channels
        scenario.estimatedSteps := rfl
  have hentry : (buildScenarioWorkflow scenario now).entryStepId =
      (match scenarioSteps ("wf-scenario-" ++ intStr scenario.id) scenario.channels
        scenario.estimatedSteps with
       | s :: _ => s.id
       | [] => "") := rfl
  refine ⟨by rw [hsteps, hs]; simp, ⟨s0, rest, by rw [hsteps, hs], by rw [hentry, hs]⟩, ?_⟩
  rw [hentry, hs, hsteps, hs]
  simp [stepIds]

/-- C4: `getBilkoContext` is a lazily-initialized process-wide singleton: the
first call constructs the context and registers the three custom handlers;
every later call returns the identical context without re-running
registration, the registry holds each of the three handler types exactly
once, and no call ever fails with `DuplicateHandlerError`. -/
theorem c4_context_singleton :
    (∀ n, bilkoCallResult n = Except.ok 0) ∧
    (∀ n, bilkoStateAfter (n + 1) = bilkoStateAfter 1) ∧
    (∀ n, (bilkoStateAfter (n + 1)).registry =
      ["custom.persona-response", "custom.channel-transition", "custom.assessment"]) := by
  have hstable : ∀ n, bilkoStateAfter (n + 1) = bilkoStateAfter 1 := by
    intro n
    induction n with
    | zero => rfl
    | succ m ih =>
      show (getBilkoContext (bilkoStateAfter (m + 1))).2 = bilkoStateAfter 1
      rw [ih]
      rfl
  refine ⟨?_, hstable, ?_⟩
  · intro n
    cases n with
    | zero => rfl
    | succ m =>
      show (getBilkoContext (bilkoStateAfter (m + 1))).1 = Except.ok 0
      rw [hstable m]
      rfl
  · intro n
    rw [hstable n]
    rfl

/-- C6: the `custom.channel-transition` handler is deterministic, matching the
`Pure` determinism grade declared on the workflow built by
`executeChannelTransitionStep`: for any inputs, two invocations under any two
random streams produce equal outputs. -/
theorem c6_transition_handler_deterministic (channel : String) (stepNumber : ℤ)
    (now : String) (nowMs : ℕ) :
    (transitionWorkflow channel stepNumber now nowMs).determinism = DeterminismGrade.Pure ∧
    ∀ g₁ g₂ : List ℚ,
      (channelTransitionHandler channel stepNumber g₁).1 =
        (channelTransitionHandler channel stepNumber g₂).1 :=
  ⟨rfl, fun _ _ => rfl⟩

/-- C7: every step constructed by the integration layer carries a policy with
`maxAttempts = 1` and a strictly positive `timeoutMs` in {5000, 10000, 15000},
so no step is ever configured to retry. -/
theorem c7_policy_no_retries :
    (∀ (scenario : Scenario) (now : String), ∀ s ∈ (buildScenarioWorkflow scenario now).steps,
      s.policy.maxAttempts = 1 ∧ 0 < s.policy.timeoutMs ∧
        (s.policy.timeoutMs = 5000 ∨ s.policy.timeoutMs = 10000 ∨ s.policy.timeoutMs = 15000)) ∧
    (∀ (sessionId personaId : ℤ) (personaType userMessage channel : String) (step : ℤ)
        (priorCount : ℕ) (now : String) (nowMs : ℕ),
      ∀ s ∈ (personaWorkflow sessionId personaId personaType userMessage channel step
          priorCount now nowMs).steps,
        s.policy.maxAttempts = 1 ∧ 0 < s.policy.timeoutMs ∧
          (s.policy.timeoutMs = 5000 ∨ s.policy.timeoutMs = 10000 ∨ s.policy.timeoutMs = 15000)) ∧
    (∀ (channel : String) (stepNumber : ℤ) (now : String) (nowMs : ℕ),
      ∀ s ∈ (transitionWorkflow channel stepNumber now nowMs).steps,
        s.policy.maxAttempts = 1 ∧ 0 < s.policy.timeoutMs ∧
          (s.policy.timeoutMs = 5000 ∨ s.policy.timeoutMs = 10000 ∨ s.policy.timeoutMs = 15000)) ∧
    (∀ (sessionId : ℤ) (userMessageCount artifactCount uniqueChannelCount : ℕ)
        (hasArtifacts : Bool) (now : String) (nowMs : ℕ),
      ∀ s ∈ (assessmentWorkflow sessionId userMessageCount artifactCount uniqueChannelCount
          hasArtifacts now nowMs).steps,
        s.policy.maxAttempts = 1 ∧ 0 < s.policy.timeoutMs ∧
          (s.policy.timeoutMs = 5000 ∨ s.policy.timeoutMs = 10000 ∨ s.policy.timeoutMs = 15000)) := by
  refine ⟨?_, ?_, ?_, ?_⟩
  · intro scenario now s hs
    rcases mem_scenarioSteps _ scenario.channels scenario.estimatedSteps s hs with h | ⟨i, _, h | h⟩
    · subst h; exact ⟨rfl, (by decide : (0:ℕ) < 15000), Or.inr (Or.inr rfl)⟩
    · subst h; exact ⟨rfl, (by decide : (0:ℕ) < 5000), Or.inl rfl⟩
    · subst h; exact ⟨rfl, (by decide : (0:ℕ) < 10000), Or.inr (Or.inl rfl)⟩
  · intro sessionId personaId personaType userMessage channel step priorCount now nowMs s hs
    simp only [personaWorkflow, List.mem_singleton] at hs
    subst hs
    exact ⟨rfl, (by decide : (0:ℕ) < 10000), Or.inr (Or.inl rfl)⟩
  · intro channel stepNumber now nowMs s hs
    simp only [transitionWorkflow, List.mem_singleton] at hs
    subst hs
    exact ⟨rfl, (by decide : (0:ℕ) < 5000), Or.inl rfl⟩
  · intro sessionId userMessageCount artifactCount uniqueChannelCount hasArtifacts now nowMs s hs
    simp only [assessmentWorkflow, List.mem_singleton] at hs
    subst hs
    exact ⟨rfl, (by decide : (0:ℕ) < 15000), Or.inr (Or.inr rfl)⟩

/-- C7 witness: the transition step of a one-step scenario workflow has
`maxAttempts = 1` and `timeoutMs = 5000`. -/
theorem c7_witness :
    (transitionStep ("wf-scenario-" ++ intStr 1) ["email"] 0).policy.maxAttempts = 1 ∧
    0 < (transitionStep ("wf-scenario-" ++ intStr 1) ["email"] 0).policy.timeoutMs ∧
    ((transitionStep ("wf-scenario-" ++ intStr 1) ["email"] 0).policy.timeoutMs = 5000 ∨
     (transitionStep ("wf-scenario-" ++ intStr 1) ["email"] 0).policy.timeoutMs = 10000 ∨
     (transitionStep ("wf-scenario-" ++ intStr 1) ["email"] 0).policy.timeoutMs = 15000) :=
  c7_policy_no_retries.1 ⟨1, "t", "d", ["email"], 1⟩ "now"
    (transitionStep ("wf-scenario-" ++ intStr 1) ["email"] 0) (by decide)

/-- C5 counterexample: the claim says a step result with no outputs is
surfaced to the caller as an error or failure indication in all three one-off
executors, but `executePersonaResponseStep` returns a success-shaped fallback
value and `executeChannelTransitionStep` returns the very string a successful
run on an unknown channel would produce. -/
theorem c5_counterexample :
    handlePersonaRunResult none = Except.ok personaFallbackResult ∧
    handleTransitionRunResult none "email" 1 =
      Except.ok "**Step 1**: Continue the engagement through email." ∧
    (channelTransitionHandler "slack" 1 []).1.transitionMessage =
      "**Step 1**: Continue the engagement through slack." :=
  ⟨rfl, rfl, rfl⟩

/-- C5 (amended): only `executeAssessmentStep` surfaces a missing-outputs step
result as an error (`Error("Assessment step failed to produce outputs")`);
`executePersonaResponseStep` and `executeChannelTransitionStep` replace a
missing result with fixed success-shaped fallback values. -/
theorem c5_failure_surfacing (o : AssessmentOutputs) (p : PersonaOutputs)
    (channel : String) (stepNumber : ℤ) :
    handleAssessmentRunResult (some o) = Except.ok o ∧
    handleAssessmentRunResult none = Except.error "Assessment step failed to produce outputs" ∧
    handlePersonaRunResult (some p) = Except.ok p ∧
    handlePersonaRunResult none = Except.ok personaFallbackResult ∧
    handleTransitionRunResult none channel stepNumber =
      Except.ok ("**Step " ++ intStr stepNumber ++ "**: Continue the engagement through " ++
        channel ++ ".") :=
  ⟨rfl, rfl, rfl, rfl, rfl⟩

/-- C8: the stage-selection function of workflow-engine.ts is equivalent to
the persona-engine.ts functions it replaced: on a message list containing
exactly `n` messages of the persona, `getStageForPersonaType` agrees with
`getAnalyticalStage` for `analytical_calm`, with `getCooperativeStage` for
`cooperative`, and with `getResponseStage` for every other persona type. -/
theorem c8_stage_equivalence (personaType : String) (n : ℕ) (messages : List Message)
    (personaId : ℤ)
    (hcount : (messages.filter (fun m => m.personaId == some personaId)).length = n) :
    (personaType = "analytical_calm" →
      getStageForPersonaType personaType n = getAnalyticalStage messages personaId) ∧
    (personaType = "cooperative" →
      getStageForPersonaType personaType n = getCooperativeStage messages personaId) ∧
    (personaType ≠ "analytical_calm" → personaType ≠ "cooperative" →
      getStageForPersonaType personaType n = getResponseStage messages personaId) := by
  refine ⟨?_, ?_, ?_⟩
  · intro h
    subst h
    simp only [getStageForPersonaType, getAnalyticalStage, hcount, if_pos rfl, if_true]
  · intro h
    subst h
    have hne : ("cooperative" : String) ≠ "analytical_calm" := by decide
    simp only [getStageForPersonaType, getCooperativeStage, hcount, if_neg hne, if_pos rfl, if_true]
  · intro h1 h2
    simp only [getStageForPersonaType, getResponseStage, hcount, if_neg h1, if_neg h2]

/-- C8 witness: for the default persona type with one prior persona message,
both paths select the `objection` stage. -/
theorem c8_witness :
    getStageForPersonaType "difficult_skeptical" 1 =
      getResponseStage [{ personaId := some 5, senderType := "persona", channel := "email" }] 5 :=
  (c8_stage_equivalence "difficult_skeptical" 1
      [{ personaId := some 5, senderType := "persona", channel := "email" }] 5 (by decide)).2.2
    (by decide) (by decide)

/-- C9: for every input to the `custom.assessment` handler and every sequence
of random draws in `[0, 1)`, each of the seven dimension scores is an integer
in `[0, 100]`, `artifactQuality = 0` exactly when `hasArtifacts` is false,
`overallScore` is the rounded mean of the seven scores and lies in `[0, 100]`,
and the recommendation is `pass` iff the overall score is at least 70,
`needs_improvement` iff it is in `[50, 70)`, and `fail` otherwise. -/
theorem c9_assessment_handler (inp : AssessmentInputs) (draws : List ℚ)
    (hdraws : ∀ r ∈ draws, 0 ≤ r ∧ r < 1) (s : AssessmentScores) (o : ℤ)
    (hs : s = assessmentScores inp draws) (ho : o = overallScoreOf s) :
    (0 ≤ s.persuasiveness ∧ s.persuasiveness ≤ 100) ∧
    (0 ≤ s.objectionHandling ∧ s.objectionHandling ≤ 100) ∧
    (0 ≤ s.interpersonalVibe ∧ s.interpersonalVibe ≤ 100) ∧
    (0 ≤ s.writtenCommunication ∧ s.writtenCommunication ≤ 100) ∧
    (0 ≤ s.artifactQuality ∧ s.artifactQuality ≤ 100) ∧
    (0 ≤ s.sequencingStrategy ∧ s.sequencingStrategy ≤ 100) ∧
    (0 ≤ s.decisionQuality ∧ s.decisionQuality ≤ 100) ∧
    (s.artifactQuality = 0 ↔ inp.hasArtifacts = false) ∧
    o = jsRound ((scoreSum s : ℚ) / 7) ∧ (0 ≤ o ∧ o ≤ 100) ∧
    (recommendationOf o = "pass" ↔ 70 ≤ o) ∧
    (recommendationOf o = "needs_improvement" ↔ 50 ≤ o ∧ o < 70) ∧
    (recommendationOf o = "fail" ↔ o < 50) := by
  subst hs
  subst ho
  have hr : ∀ k, 0 ≤ drawAt draws k := fun k => (drawAt_bounds hdraws k).1
  have hmd : (0:ℚ) ≤ min ((inp.userMessageCount : ℚ) * 8) 100 :=
    le_min (by positivity) (by norm_num)
  have hcd : (0:ℚ) ≤ min ((inp.uniqueChannelCount : ℚ) * 12) 100 :=
    le_min (by positivity) (by norm_num)
  have hab : (0:ℚ) ≤ (if inp.hasArtifacts then (15:ℚ) else 0) := by split_ifs <;> norm_num
  have h1 := clampScore_bounds
    (min ((inp.userMessageCount : ℚ) * 8) 100 * (8/10) + drawAt draws 0 * 20)
    (add_nonneg (mul_nonneg hmd (by norm_num)) (mul_nonneg (hr 0) (by norm_num)))
  have h2 := clampScore_bounds
    (min ((inp.userMessageCount : ℚ) * 8) 100 * (7/10) + drawAt draws 1 * 25)
    (add_nonneg (mul_nonneg hmd (by norm_num)) (mul_nonneg (hr 1) (by norm_num)))
  have h3 := clampScore_bounds
    (min ((inp.userMessageCount : ℚ) * 8) 100 * (75/100) + drawAt draws 2 * 20)
    (add_nonneg (mul_nonneg hmd (by norm_num)) (mul_nonneg (hr 2) (by norm_num)))
  have h4 := clampScore_bounds
    ((min ((inp.userMessageCount : ℚ) * 8) 100 + (if inp.hasArtifacts then (15:ℚ) else 0)) * (8/10) +
      drawAt draws 3 * 15)
    (add_nonneg (mul_nonneg (add_nonneg hmd hab) (by norm_num)) (mul_nonneg (hr 3) (by norm_num)))
  have h6 := clampScore_bounds
    (min ((inp.uniqueChannelCount : ℚ) * 12) 100 * (8/10) +
      drawAt draws (4 + (if inp.hasArtifacts then 1 else 0)) * 20)
    (add_nonneg (mul_nonneg hcd (by norm_num)) (mul_nonneg (hr _) (by norm_num)))
  have h7 := clampScore_bounds
    (min ((inp.userMessageCount : ℚ) * 8) 100 * (65/100) +
      drawAt draws (5 + (if inp.hasArtifacts then 1 else 0)) * 30)
    (add_nonneg (mul_nonneg hmd (by norm_num)) (mul_nonneg (hr _) (by norm_num)))
  have haqeq : (assessmentScores inp draws).artifactQuality =
      (if inp.hasArtifacts then min (jsRound (60 + drawAt draws 4 * 35)) 100 else 0) := rfl
  have haq : (0 ≤ (assessmentScores inp draws).artifactQuality ∧
      (assessmentScores inp draws).artifactQuality ≤ 100) ∧
      ((assessmentScores inp draws).artifactQuality = 0 ↔ inp.hasArtifacts = false) := by
    rw [haqeq]
    cases hA : inp.hasArtifacts
    · simp
    · have h35 : (0:ℚ) ≤ drawAt draws 4 * 35 := mul_nonneg (hr 4) (by norm_num)
      have h60 : (60:ℤ) ≤ jsRound (60 + drawAt draws 4 * 35) := jsRound_ge 60 (by push_cast; linarith)
      have hmin : (60:ℤ) ≤ min (jsRound (60 + drawAt draws 4 * 35)) 100 := le_min h60 (by norm_num)
      simp only [if_true]
      refine ⟨⟨le_trans (by norm_num) hmin, min_le_right _ _⟩, ?_, ?_⟩
      · intro h0
        rw [h0] at hmin
        exact absurd hmin (by decide)
      · intro h
        simp at h
  have hb1 : 0 ≤ (assessmentScores inp draws).persuasiveness ∧
      (assessmentScores inp draws).persuasiveness ≤ 100 := h1
  have hb2 : 0 ≤ (assessmentScores inp draws).objectionHandling ∧
      (assessmentScores inp draws).objectionHandling ≤ 100 := h2
  have hb3 : 0 ≤ (assessmentScores inp draws).interpersonalVibe ∧
      (assessmentScores inp draws).interpersonalVibe ≤ 100 := h3
  have hb4 : 0 ≤ (assessmentScores inp draws).writtenCommunication ∧
      (assessmentScores inp draws).writtenCommunication ≤ 100 := h4
  have hb6 : 0 ≤ (assessmentScores inp draws).sequencingStrategy ∧
      (assessmentScores inp draws).sequencingStrategy ≤ 100 := h6
  have hb7 : 0 ≤ (assessmentScores inp draws).decisionQuality ∧
      (assessmentScores inp draws).decisionQuality ≤ 100 := h7
  have hsum0 : 0 ≤ scoreSum (assessmentScores inp draws) := by
    unfold scoreSum
    linarith [hb1.1, hb2.1, hb3.1, hb4.1, haq.1.1, hb6.1, hb7.1]
  have hsum7 : scoreSum (assessmentScores inp draws) ≤ 700 := by
    unfold scoreSum
    linarith [hb1.2, hb2.2, hb3.2, hb4.2, haq.1.2, hb6.2, hb7.2]
  have hover0 : 0 ≤ overallScoreOf (assessmentScores inp draws) :=
    jsRound_nonneg (div_nonneg (by exact_mod_cast hsum0) (by norm_num))
  have hover100 : overallScoreOf (assessmentScores inp draws) ≤ 100 := by
    apply jsRound_le_100
    rw [div_le_iff₀ (by norm_num : (0:ℚ) < 7)]
    have : ((scoreSum (assessmentScores inp draws) : ℚ)) ≤ 700 := by exact_mod_cast hsum7
    linarith
  have hrec := recommendationOf_iff (overallScoreOf (assessmentScores inp draws))
  exact ⟨hb1, hb2, hb3, hb4, haq.1, hb6, hb7, haq.2, rfl, ⟨hover0, hover100⟩,
    hrec.1, hrec.2.1, hrec.2.2⟩

/-- C9 witness: at a concrete input with no artifacts and no random draws the
persuasiveness score lies in `[0, 100]`. -/
theorem c9_witness :
    0 ≤ (assessmentScores ⟨1, 2, 1, 1, false⟩ []).persuasiveness ∧
    (assessmentScores ⟨1, 2, 1, 1, false⟩ []).persuasiveness ≤ 100 :=
  (c9_assessment_handler ⟨1, 2, 1, 1, false⟩ [] (by simp)
    (assessmentScores ⟨1, 2, 1, 1, false⟩ [])
    (overallScoreOf (assessmentScores ⟨1, 2, 1, 1, false⟩ [])) rfl rfl).1

/-- C10 counterexample: the claim says that for `step ≤ 0` with at least one
active persona the computed index is negative and the array access is out of
bounds, but at `step = 0` with a single active persona JavaScript computes
`(0 - 1) % 1 = -0`, `activePersonas[-0]` is `activePersonas[0]`, and the
function totally returns that persona. -/
theorem c10_counterexample :
    getActivePersonaForStep [{ personaId := 7, introduceAtStep := 0, roleInScenario := "ally" }] 0 =
      some (some { personaId := 7, introduceAtStep := 0, roleInScenario := "ally" }) := by
  decide

/-- C10 (amended): `getActivePersonaForStep` returns `null` iff no linked
persona has `introduceAtStep ≤ step`; for `step ≥ 1` with a non-empty active
list it totally returns the active persona at index `(step - 1) mod count`;
and for `step ≤ 0` with a non-empty active list it crashes on a negative
index exactly when `count` does not divide `step - 1` (when it does, the
JavaScript index is `-0` and the first active persona is returned). -/
theorem c10_active_persona_cases (sps : List ScenarioPersona) (step : ℤ) :
    (getActivePersonaForStep sps step = some none ↔
      sps.filter (fun sp => sp.introduceAtStep ≤ step) = []) ∧
    (∀ _ : 1 ≤ step,
      ∀ hne : (sps.filter (fun sp => sp.introduceAtStep ≤ step)).length ≠ 0,
      ∃ hlt : ((step - 1) % ((sps.filter (fun sp => sp.introduceAtStep ≤ step)).length : ℤ)).toNat <
          (sps.filter (fun sp => sp.introduceAtStep ≤ step)).length,
        getActivePersonaForStep sps step =
          some (some ((sps.filter (fun sp => sp.introduceAtStep ≤ step)).get
            ⟨((step - 1) % ((sps.filter (fun sp => sp.introduceAtStep ≤ step)).length : ℤ)).toNat,
              hlt⟩))) ∧
    (step ≤ 0 →
      (sps.filter (fun sp => sp.introduceAtStep ≤ step)).length ≠ 0 →
      ¬ (((sps.filter (fun sp => sp.introduceAtStep ≤ step)).length : ℤ) ∣ (step - 1)) →
      getActivePersonaForStep sps step = none) := by
  refine ⟨?_, ?_, ?_⟩
  · unfold getActivePersonaForStep
    by_cases hlen : (sps.filter (fun sp => sp.introduceAtStep ≤ step)).length = 0
    · rw [if_pos hlen]
      exact ⟨fun _ => List.length_eq_zero.mp hlen, fun _ => rfl⟩
    · rw [if_neg hlen]
      constructor
      · intro h
        by_cases hc : 0 ≤ Int.tmod (step - 1)
              ((sps.filter (fun sp => sp.introduceAtStep ≤ step)).length : ℤ) ∧
            (Int.tmod (step - 1)
              ((sps.filter (fun sp => sp.introduceAtStep ≤ step)).length : ℤ)).toNat <
              (sps.filter (fun sp => sp.introduceAtStep ≤ step)).length
        · rw [dif_pos hc] at h
          simp at h
        · rw [dif_neg hc] at h
          simp at h
      · intro h
        exact absurd (congrArg List.length h) (by simpa using hlen)
  · intro hstep hne
    have hpos : 0 < ((sps.filter (fun sp => sp.introduceAtStep ≤ step)).length : ℤ) := by
      omega
    have h0 : (0:ℤ) ≤ step - 1 := by omega
    have htm : Int.tmod (step - 1) ((sps.filter (fun sp => sp.introduceAtStep ≤ step)).length : ℤ) =
        (step - 1) % ((sps.filter (fun sp => sp.introduceAtStep ≤ step)).length : ℤ) :=
      Int.tmod_eq_emod h0 (by omega)
    have hnn : 0 ≤ Int.tmod (step - 1)
        ((sps.filter (fun sp => sp.introduceAtStep ≤ step)).length : ℤ) :=
      Int.tmod_nonneg _ h0
    have hlt' : Int.tmod (step - 1)
        ((sps.filter (fun sp => sp.introduceAtStep ≤ step)).length : ℤ) <
        ((sps.filter (fun sp => sp.introduceAtStep ≤ step)).length : ℤ) :=
      Int.tmod_lt_of_pos _ hpos
    have hcond : 0 ≤ Int.tmod (step - 1)
          ((sps.filter (fun sp => sp.introduceAtStep ≤ step)).length : ℤ) ∧
        (Int.tmod (step - 1)
          ((sps.filter (fun sp => sp.introduceAtStep ≤ step)).length : ℤ)).toNat <
          (sps.filter (fun sp => sp.introduceAtStep ≤ step)).length :=
      ⟨hnn, (Int.toNat_lt hnn).mpr hlt'⟩
    refine ⟨by rw [← htm]; exact hcond.2, ?_⟩
    unfold getActivePersonaForStep
    rw [if_neg hne, dif_pos hcond]
    have hval : (Int.tmod (step - 1)
          ((sps.filter (fun sp => sp.introduceAtStep ≤ step)).length : ℤ)).toNat =
        ((step - 1) % ((sps.filter (fun sp => sp.introduceAtStep ≤ step)).length : ℤ)).toNat := by
      rw [htm]
    have hfin : (⟨(Int.tmod (step - 1)
          ((sps.filter (fun sp => sp.introduceAtStep ≤ step)).length : ℤ)).toNat, hcond.2⟩ :
        Fin (sps.filter (fun sp => sp.introduceAtStep ≤ step)).length) =
        ⟨((step - 1) % ((sps.filter (fun sp => sp.introduceAtStep ≤ step)).length : ℤ)).toNat,
          by rw [← htm]; exact hcond.2⟩ :=
      Fin.ext hval
    rw [hfin]
  · intro hstep hne hdvd
    have hnp : Int.tmod (step - 1)
        ((sps.filter (fun sp => sp.introduceAtStep ≤ step)).length : ℤ) ≤ 0 :=
      tmod_nonpos_of_nonpos _ _ (by omega)
    have hnz : Int.tmod (step - 1)
        ((sps.filter (fun sp => sp.introduceAtStep ≤ step)).length : ℤ) ≠ 0 := by
      intro h0
      exact hdvd (Int.dvd_iff_tmod_eq_zero.mpr h0)
    unfold getActivePersonaForStep
    rw [if_neg hne, dif_neg]
    intro hc
    have := hc.1
    omega

/-- C10 witness: with two personas active at step 0, the JavaScript index is
`-1 % 2 = -1` and the lookup crashes, as the amended claim states. -/
theorem c10_witness :
    getActivePersonaForStep
      [{ personaId := 1, introduceAtStep := -5, roleInScenario := "a" },
       { personaId := 2, introduceAtStep := -5, roleInScenario := "b" }] 0 = none :=
  (c10_active_persona_cases
      [{ personaId := 1, introduceAtStep := -5, roleInScenario := "a" },
       { personaId := 2, introduceAtStep := -5, roleInScenario := "b" }] 0).2.2
    (by decide) (by decide) (by decide)

end LevelUp
